import Mathlib

/-!
Verification of the Reachy playground motor control layer.

The development shallowly embeds the `DynamixelMotor` wrapper class and the
`WsMotor` actuator placeholder defined in the notebook
`notebooks/Unity/Head control in Unity using the look_at function.ipynb`,
together with the scheduling of the one-shot static-error correction timer.
Angles are modelled as rationals.  The trajectory interpolation classes of
`reachy.trajectory` are not part of this repository; where a claim depends on
them they are modelled from the specification and marked as such.
-/

namespace Reachy

/-- The `WsMotor` placeholder class: the underlying actuator state as the
notebook's WebSocket IO layer keeps it (compliant flag, target angle register,
present angle register, temperature). -/
structure WsMotor where
  compliant : Bool
  target_rot_position : ℚ
  rot_position : ℚ
  temperature : ℚ
deriving Repr, DecidableEq

/-- The `DynamixelMotor` wrapper state: configuration (`offset`,
`orientation == direct`), the wrapped actuator, the static-fix opt-in flag and
the reference kept in `self._timer` (identified here by a timer id). -/
structure DynamixelMotor where
  offset : ℚ
  direct : Bool
  motor : WsMotor
  use_static_fix : Bool
  timer : Option ℕ
deriving Repr, DecidableEq

namespace DynamixelMotor

/-- `DynamixelMotor.is_direct`: whether the motor orientation is direct. -/
def is_direct (m : DynamixelMotor) : Bool :=
  m.direct

/-- `DynamixelMotor._as_local_pos`: raw-to-logical angle conversion,
`(pos if self.is_direct() else -pos) - self.offset`. -/
def as_local_pos (m : DynamixelMotor) (pos : ℚ) : ℚ :=
  (if m.is_direct then pos else -pos) - m.offset

/-- `DynamixelMotor._to_motor_pos`: logical-to-raw angle conversion,
`(pos + self.offset) * (1 if self.is_direct() else -1)`. -/
def to_motor_pos (m : DynamixelMotor) (pos : ℚ) : ℚ :=
  (pos + m.offset) * (if m.is_direct then 1 else -1)

/-- `DynamixelMotor.present_position`: logical view of the actuator's present
angle register. -/
def present_position (m : DynamixelMotor) : ℚ :=
  m.as_local_pos m.motor.rot_position

/-- `DynamixelMotor.goal_position` (getter): logical view of the actuator's
target angle register. -/
def goal_position (m : DynamixelMotor) : ℚ :=
  m.as_local_pos m.motor.target_rot_position

/-- `DynamixelMotor.compliant` (getter): reads the actuator's compliant
flag. -/
def compliant (m : DynamixelMotor) : Bool :=
  m.motor.compliant

/-- `DynamixelMotor.compliant` (setter): `self._motor.compliant = value`. -/
def set_compliant (m : DynamixelMotor) (value : Bool) : DynamixelMotor :=
  { m with motor := { m.motor with compliant := value } }

/-- `DynamixelMotor.goal_position` (setter), pure part: when not compliant,
write the converted value to the actuator's target register; report whether a
static-error check must be scheduled (`self._use_static_fix` and the write
happened).  When compliant, nothing happens. -/
def goal_position_setter (m : DynamixelMotor) (value : ℚ) :
    DynamixelMotor × Bool :=
  if m.compliant then (m, false)
  else
    ({ m with motor := { m.motor with target_rot_position := m.to_motor_pos value } },
     m.use_static_fix)

/-- `DynamixelMotor.use_static_error_fix`: sets `self._use_static_fix`. -/
def use_static_error_fix (m : DynamixelMotor) (activate : Bool) : DynamixelMotor :=
  { m with use_static_fix := activate }

/-- `DynamixelMotor._fix_static_error`: the one-shot correction callback.  If
`|present - goal| > threshold` the goal is rewritten to
`goal + (present - goal) / 2` (converted to the raw frame, written directly to
the actuator's target register) and `self._timer` is cleared; otherwise the
state is untouched.  The callback never reschedules a timer. -/
def fix_static_error (m : DynamixelMotor) (threshold : ℚ) : DynamixelMotor :=
  let error := m.present_position - m.goal_position
  if |error| > threshold then
    { m with
      motor := { m.motor with
        target_rot_position := m.to_motor_pos (m.goal_position + error / 2) },
      timer := none }
  else m

end DynamixelMotor

/-- `WsIO.find_dxl`: constructs the actuator placeholder and its wrapper for a
joint with the given configuration; the initial raw position is
`offset * (-1 if orientation == indirect else 1)`, the motor starts
non-compliant with no pending timer and the static fix disabled. -/
def find_dxl (offset : ℚ) (direct : Bool) : DynamixelMotor :=
  let pos := offset * (if direct then 1 else -1)
  { offset := offset
    direct := direct
    motor := { compliant := false
               target_rot_position := pos
               rot_position := pos
               temperature := 20 }
    use_static_fix := false
    timer := none }

/-- A motor together with the set of live (started, neither fired nor
cancelled) one-shot timers targeting it, and a supply of fresh timer ids.
`live` models the `threading.Timer` objects that have been `start`ed and whose
callback has not run and whose `cancel` has not been called. -/
structure MotorSys where
  dxl : DynamixelMotor
  live : List ℕ
  nextId : ℕ
deriving Repr, DecidableEq

namespace MotorSys

/-- `DynamixelMotor._schedule_static_error_fix`: cancel the timer referenced by
`self._timer` when there is one, then create and start a fresh one-shot timer
and remember it in `self._timer`. -/
def schedule (s : MotorSys) : MotorSys :=
  let live1 :=
    match s.dxl.timer with
    | some t => s.live.erase t
    | none => s.live
  { dxl := { s.dxl with timer := some s.nextId }
    live := s.nextId :: live1
    nextId := s.nextId + 1 }

/-- `DynamixelMotor.goal_position` (setter), full effect: the pure write, then
`_schedule_static_error_fix(delay=1)` when the static fix is active and the
motor is not compliant. -/
def writeGoal (s : MotorSys) (value : ℚ) : MotorSys :=
  let p := s.dxl.goal_position_setter value
  let s1 : MotorSys := { s with dxl := p.1 }
  if p.2 then s1.schedule else s1

/-- The compliant setter lifted to the system state. -/
def setCompliant (s : MotorSys) (b : Bool) : MotorSys :=
  { s with dxl := s.dxl.set_compliant b }

/-- `use_static_error_fix` lifted to the system state. -/
def setStaticFix (s : MotorSys) (b : Bool) : MotorSys :=
  { s with dxl := s.dxl.use_static_error_fix b }

/-- The environment moving the joint: the actuator's present angle register
changes (e.g. the physical motor moving towards its target or stalling). -/
def movePresent (s : MotorSys) (raw : ℚ) : MotorSys :=
  { s with dxl := { s.dxl with motor := { s.dxl.motor with rot_position := raw } } }

/-- A live one-shot timer fires: its callback `_fix_static_error` runs with
the default threshold 2 and the timer is no longer live.  A cancelled or
already-fired timer cannot fire. -/
def fireTimer (s : MotorSys) (t : ℕ) : MotorSys :=
  if t ∈ s.live then
    { s with live := s.live.erase t, dxl := s.dxl.fix_static_error 2 }
  else s

end MotorSys

/-- Events that can happen to one motor: direct goal writes, compliance and
static-fix toggles, physical motion, and a pending timer firing. -/
inductive MotorOp where
  | writeGoal (value : ℚ)
  | setCompliant (b : Bool)
  | setStaticFix (b : Bool)
  | movePresent (raw : ℚ)
  | fire (t : ℕ)
deriving Repr, DecidableEq

/-- Apply one event to the system state. -/
def MotorSys.step (s : MotorSys) : MotorOp → MotorSys
  | .writeGoal v => s.writeGoal v
  | .setCompliant b => s.setCompliant b
  | .setStaticFix b => s.setStaticFix b
  | .movePresent r => s.movePresent r
  | .fire t => s.fireTimer t

/-- Apply a sequence of events. -/
def MotorSys.run (s : MotorSys) (ops : List MotorOp) : MotorSys :=
  ops.foldl MotorSys.step s

/-- The initial system state for a freshly attached joint: no live timer. -/
def initSys (offset : ℚ) (direct : Bool) : MotorSys :=
  { dxl := find_dxl offset direct, live := [], nextId := 0 }

/-- The keys of the `interpolation_modes` dictionary of `reachy.trajectory`,
as the specification fixes them: the two known interpolation techniques. -/
def interpolation_modes : List String :=
  ["linear", "minjerk"]

/-- Modelled from the spec: the linear interpolation law of the trajectory
player (`reachy.trajectory.interpolation.Linear`, not part of this
repository): `position(t) = start + (end - start) * (t / duration)` with `t`
clamped to `[0, duration]`. -/
def linear_interpolation (startPos goalPos duration t : ℚ) : ℚ :=
  let tc := max 0 (min t duration)
  startPos + (goalPos - startPos) * (tc / duration)

/-- Modelled from the spec: the minimum-jerk interpolation law
(`reachy.trajectory.interpolation.MinimumJerk`, not part of this repository):
`position(t) = start + (end - start) * (10 τ^3 - 15 τ^4 + 6 τ^5)` with
`τ = t / duration` clamped to `[0, 1]`. -/
def minjerk_interpolation (startPos goalPos duration t : ℚ) : ℚ :=
  let tau := max 0 (min (t / duration) 1)
  startPos + (goalPos - startPos) * (10 * tau ^ 3 - 15 * tau ^ 4 + 6 * tau ^ 5)

/-- A trajectory player, as produced by
`interpolation_modes[interpolation_mode](starting_point, goal_position,
duration)`: the fixed start value, end value, duration and mode. -/
structure TrajPlayer where
  startPos : ℚ
  goalPos : ℚ
  duration : ℚ
  mode : String
deriving Repr, DecidableEq

/-- The position signal sampled by a player at time `t`. -/
def TrajPlayer.interpolate (p : TrajPlayer) (t : ℚ) : ℚ :=
  if p.mode = "minjerk" then
    minjerk_interpolation p.startPos p.goalPos p.duration t
  else
    linear_interpolation p.startPos p.goalPos p.duration t

/-- Modelled from the spec: constructing a trajectory player rejects a
non-positive duration synchronously, before any player exists (the
constructor lives in `reachy.trajectory`, not in this repository; the spec
fixes `duration <= 0` as rejected immediately with no player created). -/
def make_traj_player (startPos goalPos duration : ℚ) (mode : String) :
    Option TrajPlayer :=
  if duration ≤ 0 then none
  else some { startPos := startPos, goalPos := goalPos, duration := duration, mode := mode }

/-- `getattr(self, starting_point)`: reading the register named by the
`starting_point` argument; an unknown name raises `AttributeError`. -/
def DynamixelMotor.read_register (m : DynamixelMotor) (name : String) : Option ℚ :=
  if name = "present_position" then some m.present_position
  else if name = "goal_position" then some m.goal_position
  else none

/-- The possible synchronous outcomes of a `goto` call. -/
inductive GotoOutcome where
  | valueErrorMode
  | attrError
  | constructionError
  | started (p : TrajPlayer)
deriving Repr, DecidableEq

/-- `DynamixelMotor.goto`: validate `interpolation_mode` against the keys of
`interpolation_modes` (raising `ValueError` before anything else happens),
read the starting register, construct the trajectory player and start it.
The motor state is returned unchanged: `goto` itself performs no position
write (writes only happen on the player's ticks). -/
def DynamixelMotor.goto (m : DynamixelMotor) (goalPos duration : ℚ)
    (startingPoint : String) (interpolationMode : String) :
    GotoOutcome × DynamixelMotor :=
  if interpolationMode ∉ interpolation_modes then (.valueErrorMode, m)
  else
    match m.read_register startingPoint with
    | none => (.attrError, m)
    | some s0 =>
      match make_traj_player s0 goalPos duration interpolationMode with
      | none => (.constructionError, m)
      | some p => (.started p, m)

/-- Timer invariant for one motor: either no timer is live, or exactly the
timer referenced by `self._timer` is live. -/
def TimerInv (s : MotorSys) : Prop :=
  s.live = [] ∨ ∃ t, s.dxl.timer = some t ∧ s.live = [t]

/-- A concrete non-compliant motor whose present position is 10° away from
its goal (static error far above the 2° threshold). -/
def motorFar : DynamixelMotor :=
  { offset := 0
    direct := true
    motor := { compliant := false
               target_rot_position := 0
               rot_position := 10
               temperature := 20 }
    use_static_fix := true
    timer := some 0 }

/-- A concrete motor whose present position is 1° away from its goal (within
the 2° threshold). -/
def motorNear : DynamixelMotor :=
  { motorFar with motor := { motorFar.motor with rot_position := 1 } }

/-- A concrete compliant motor with a static error of 10°. -/
def motorCompliantFar : DynamixelMotor :=
  { motorFar with motor := { motorFar.motor with compliant := true } }

end Reachy

open Reachy

/-- C1: while `compliant` is true, a `goal_position` write is silently ignored:
the actuator's target register keeps its value, the wrapper state is unchanged
(in particular no exception path exists, the setter is total), and reading
`goal_position` after the write returns the value it had before the write. -/
theorem compliant_goal_write_noop (m : DynamixelMotor) (v : ℚ) :
    ((m.set_compliant true).goal_position_setter v).1 = m.set_compliant true ∧
    ((m.set_compliant true).goal_position_setter v).1.motor.target_rot_position
      = m.motor.target_rot_position ∧
    ((m.set_compliant true).goal_position_setter v).1.goal_position
      = m.goal_position := by
  refine ⟨?_, ?_, ?_⟩ <;>
    simp [DynamixelMotor.goal_position_setter, DynamixelMotor.compliant,
      DynamixelMotor.set_compliant, DynamixelMotor.goal_position,
      DynamixelMotor.as_local_pos, DynamixelMotor.is_direct]

/-- C3: the logical position read by `present_position` (resp. `goal_position`)
is `(raw if direct else -raw) - offset` applied to the actuator's present
(resp. target) register; in particular a motor with `offset = 26`, direct
orientation and raw present position `30` reads logical present position `4`. -/
theorem local_pos_formula :
    (∀ m : DynamixelMotor,
      m.present_position
        = (if m.direct then m.motor.rot_position else -m.motor.rot_position) - m.offset ∧
      m.goal_position
        = (if m.direct then m.motor.target_rot_position else -m.motor.target_rot_position)
            - m.offset) ∧
    ({ find_dxl 26 true with
        motor := { (find_dxl 26 true).motor with rot_position := 30 } }
      : DynamixelMotor).present_position = 4 := by
  constructor
  · intro m
    exact ⟨rfl, rfl⟩
  · show ((30 : ℚ)) - 26 = 4
    norm_num

/-- C4: the logical-to-raw conversion inverts the raw-to-logical conversion
for every raw angle, every offset and both orientations:
`_to_motor_pos(_as_local_pos(x)) = x`. -/
theorem to_motor_pos_as_local_pos (m : DynamixelMotor) (x : ℚ) :
    m.to_motor_pos (m.as_local_pos x) = x := by
  unfold DynamixelMotor.to_motor_pos DynamixelMotor.as_local_pos
    DynamixelMotor.is_direct
  cases m.direct
  · show (-x - m.offset + m.offset) * (-1) = x
    ring
  · show (x - m.offset + m.offset) * 1 = x
    ring

/-- C4 witness: the round trip at raw angle 30 on the `offset = 26`, direct
motor. -/
theorem to_motor_pos_as_local_pos_witness :
    (find_dxl 26 true).to_motor_pos ((find_dxl 26 true).as_local_pos 30) = 30 :=
  to_motor_pos_as_local_pos (find_dxl 26 true) 30

/-- C9: the `compliant` setter writes exactly the actuator's compliant flag:
for either boolean, offset, orientation, the static-fix flag, the pending
timer, and the actuator's target and present registers are all unchanged. -/
theorem set_compliant_frame (m : DynamixelMotor) (b : Bool) :
    (m.set_compliant b).motor.compliant = b ∧
    (m.set_compliant b).offset = m.offset ∧
    (m.set_compliant b).direct = m.direct ∧
    (m.set_compliant b).motor.target_rot_position = m.motor.target_rot_position ∧
    (m.set_compliant b).motor.rot_position = m.motor.rot_position ∧
    (m.set_compliant b).use_static_fix = m.use_static_fix ∧
    (m.set_compliant b).timer = m.timer := by
  refine ⟨rfl, rfl, rfl, rfl, rfl, rfl, rfl⟩

/-- C5: when the static-error check fires with the default threshold 2: if the
absolute residual exceeds the threshold, the target register is rewritten once
to `goal + (present - goal) / 2` converted to the raw frame (the present
register is untouched); if the residual is within the threshold, the state is
completely unchanged; and the correction never reschedules itself: a firing
timer only leaves the live set, and the callback never installs a new timer. -/
theorem fix_static_error_spec (m : DynamixelMotor) (s : MotorSys) (t : ℕ) :
    (2 < |m.present_position - m.goal_position| →
      (m.fix_static_error 2).motor.target_rot_position
        = m.to_motor_pos
            (m.goal_position + (m.present_position - m.goal_position) / 2) ∧
      (m.fix_static_error 2).motor.rot_position = m.motor.rot_position) ∧
    (|m.present_position - m.goal_position| ≤ 2 → m.fix_static_error 2 = m) ∧
    (s.fireTimer t).live.length ≤ s.live.length ∧
    ((m.fix_static_error 2).timer = none ∨ (m.fix_static_error 2).timer = m.timer) := by
  refine ⟨?_, ?_, ?_, ?_⟩
  · intro h
    rw [DynamixelMotor.fix_static_error]
    simp only [if_pos h]
    exact ⟨trivial, trivial⟩
  · intro h
    rw [DynamixelMotor.fix_static_error]
    simp only [if_neg (not_lt.mpr h)]
  · rw [MotorSys.fireTimer]
    split
    · exact le_trans (List.length_erase_le _ _) (le_refl _)
    · exact le_refl _
  · rw [DynamixelMotor.fix_static_error]
    split
    · exact Or.inl rfl
    · exact Or.inr rfl

/-- C5 witness: on a motor 10° away from its goal the target register is
rewritten, and on a motor 1° away the callback changes nothing; firing an
unknown timer id on the initial system keeps the (empty) live set. -/
theorem fix_static_error_spec_witness :
    (motorFar.fix_static_error 2).motor.target_rot_position
      = motorFar.to_motor_pos
          (motorFar.goal_position + (motorFar.present_position - motorFar.goal_position) / 2) ∧
    motorNear.fix_static_error 2 = motorNear ∧
    ((initSys 26 true).fireTimer 0).live.length ≤ (initSys 26 true).live.length :=
  ⟨((fix_static_error_spec motorFar (initSys 26 true) 0).1 (by norm_num
      [motorFar, DynamixelMotor.present_position, DynamixelMotor.goal_position,
       DynamixelMotor.as_local_pos, DynamixelMotor.is_direct])).1,
   (fix_static_error_spec motorNear (initSys 26 true) 0).2.1 (by norm_num
      [motorNear, motorFar, DynamixelMotor.present_position, DynamixelMotor.goal_position,
       DynamixelMotor.as_local_pos, DynamixelMotor.is_direct]),
   (fix_static_error_spec motorFar (initSys 26 true) 0).2.2.1⟩

/-- C10: the compliance guard does not protect the static-error correction
path: even when the motor is compliant, a firing check whose residual exceeds
the threshold writes the corrective goal directly into the actuator's target
register (the raw register write bypasses the `goal_position` setter). -/
theorem static_fix_bypasses_compliance (m : DynamixelMotor)
    (hc : m.compliant = true)
    (he : 2 < |m.present_position - m.goal_position|) :
    (m.fix_static_error 2).motor.target_rot_position
      = m.to_motor_pos
          (m.goal_position + (m.present_position - m.goal_position) / 2) ∧
    (m.fix_static_error 2).motor.compliant = true := by
  rw [DynamixelMotor.fix_static_error]
  simp only [if_pos he]
  exact ⟨trivial, hc⟩

/-- C10 witness: the compliant motor 10° away from its goal still gets its
target register rewritten (to raw angle 5) by the firing check. -/
theorem static_fix_bypasses_compliance_witness :
    (motorCompliantFar.fix_static_error 2).motor.target_rot_position
      = motorCompliantFar.to_motor_pos
          (motorCompliantFar.goal_position
            + (motorCompliantFar.present_position - motorCompliantFar.goal_position) / 2) ∧
    (motorCompliantFar.fix_static_error 2).motor.compliant = true :=
  static_fix_bypasses_compliance motorCompliantFar rfl (by norm_num
    [motorCompliantFar, motorFar, DynamixelMotor.present_position,
     DynamixelMotor.goal_position, DynamixelMotor.as_local_pos,
     DynamixelMotor.is_direct])

/-- C2: a `goto` call with non-positive duration never starts a trajectory
player — for every goal, starting point and interpolation mode the outcome is
an error (the spec-modelled player construction rejects `duration <= 0`
synchronously) — and the motor state is returned unchanged, so no position
write occurs. -/
theorem goto_nonpositive_duration_rejected (m : DynamixelMotor)
    (g d : ℚ) (sp mode : String) (hd : d ≤ 0) :
    (m.goto g d sp mode).2 = m ∧
    ∀ p : TrajPlayer, (m.goto g d sp mode).1 ≠ GotoOutcome.started p := by
  rw [DynamixelMotor.goto]
  split
  · simp
  · rcases hr : m.read_register sp with _ | s0 <;>
      simp [hr, make_traj_player, hd]

/-- C2 witness: `goto` with duration 0 on a fresh motor is rejected with the
state unchanged. -/
theorem goto_nonpositive_duration_rejected_witness :
    ((find_dxl 26 true).goto 40 0 "present_position" "linear").2 = find_dxl 26 true ∧
    ∀ p : TrajPlayer,
      ((find_dxl 26 true).goto 40 0 "present_position" "linear").1
        ≠ GotoOutcome.started p :=
  goto_nonpositive_duration_rejected (find_dxl 26 true) 40 0
    "present_position" "linear" (le_refl 0)

/-- C7: an interpolation mode outside the known keys (`linear`, `minjerk`)
makes `goto` raise `ValueError` before any trajectory player is created or
started: the outcome is the mode error and the motor state is unchanged. -/
theorem goto_unknown_mode_value_error (m : DynamixelMotor)
    (g d : ℚ) (sp mode : String) (hm : mode ∉ interpolation_modes) :
    m.goto g d sp mode = (GotoOutcome.valueErrorMode, m) := by
  rw [DynamixelMotor.goto, if_pos hm]

/-- C7 witness: `goto` with mode `cubic` is rejected by the mode check. -/
theorem goto_unknown_mode_value_error_witness :
    (find_dxl 26 true).goto 40 1 "present_position" "cubic"
      = (GotoOutcome.valueErrorMode, find_dxl 26 true) :=
  goto_unknown_mode_value_error (find_dxl 26 true) 40 1
    "present_position" "cubic" (by decide)

/-- C8: for every start, end and positive duration the linear interpolation
law (with time clamped to `[0, duration]`) starts at `start` and ends at
`end`; and the player created by `goto(goal=150, duration=1/2, linear)` on a
motor whose present position is 0 samples position 75 at `t = 1/4`. -/
theorem linear_interpolation_endpoints (s e d : ℚ) (hd : 0 < d) :
    linear_interpolation s e d 0 = s ∧
    linear_interpolation s e d d = e ∧
    ((find_dxl 0 true).goto 150 (1/2) "present_position" "linear").1
      = GotoOutcome.started
          { startPos := 0, goalPos := 150, duration := 1/2, mode := "linear" } ∧
    TrajPlayer.interpolate
      { startPos := 0, goalPos := 150, duration := 1/2, mode := "linear" } (1/4)
      = 75 := by
  refine ⟨?_, ?_, ?_, ?_⟩
  · rw [linear_interpolation]
    rw [min_eq_left hd.le, max_self]
    simp
  · rw [linear_interpolation]
    rw [min_self, max_eq_right hd.le]
    rw [div_self hd.ne.symm]
    ring
  · norm_num [DynamixelMotor.goto, interpolation_modes,
      DynamixelMotor.read_register, make_traj_player, find_dxl,
      DynamixelMotor.present_position, DynamixelMotor.as_local_pos,
      DynamixelMotor.is_direct]
  · rw [TrajPlayer.interpolate, if_neg (by decide : ¬ ("linear" = "minjerk"))]
    norm_num [linear_interpolation, min_def, max_def]

/-- C8 witness: the endpoint laws at `start = 0`, `end = 150`,
`duration = 1/2`, together with the concrete sample. -/
theorem linear_interpolation_endpoints_witness :
    linear_interpolation 0 150 (1/2) 0 = 0 ∧
    linear_interpolation 0 150 (1/2) (1/2) = 150 ∧
    ((find_dxl 0 true).goto 150 (1/2) "present_position" "linear").1
      = GotoOutcome.started
          { startPos := 0, goalPos := 150, duration := 1/2, mode := "linear" } ∧
    TrajPlayer.interpolate
      { startPos := 0, goalPos := 150, duration := 1/2, mode := "linear" } (1/4)
      = 75 :=
  linear_interpolation_endpoints 0 150 (1/2) (by norm_num)

/-- The pure part of the goal write never touches the pending-timer
reference. -/
theorem goal_position_setter_timer (m : DynamixelMotor) (v : ℚ) :
    (m.goal_position_setter v).1.timer = m.timer := by
  rw [DynamixelMotor.goal_position_setter]
  split <;> rfl

/-- Scheduling a static-error check (cancel the referenced timer, start a
fresh one) re-establishes the timer invariant. -/
theorem timerInv_schedule (s : MotorSys) (h : TimerInv s) :
    TimerInv s.schedule := by
  rcases h with h0 | ⟨t0, ht, hl⟩
  · refine Or.inr ⟨s.nextId, rfl, ?_⟩
    cases htm : s.dxl.timer <;> simp [MotorSys.schedule, htm, h0]
  · refine Or.inr ⟨s.nextId, rfl, ?_⟩
    simp [MotorSys.schedule, ht, hl]

/-- A timer firing preserves the timer invariant. -/
theorem timerInv_fire (s : MotorSys) (t : ℕ) (h : TimerInv s) :
    TimerInv (s.fireTimer t) := by
  rw [MotorSys.fireTimer]
  split
  · rename_i hmem
    rcases h with h0 | ⟨t0, ht, hl⟩
    · rw [h0] at hmem
      simp at hmem
    · left
      rw [hl] at hmem
      have ht0 : t = t0 := by simpa using hmem
      subst ht0
      show (s.live.erase t) = []
      rw [hl]
      simp
  · exact h

/-- A goal write preserves the timer invariant. -/
theorem timerInv_writeGoal (s : MotorSys) (v : ℚ) (h : TimerInv s) :
    TimerInv (s.writeGoal v) := by
  have h1 : TimerInv { s with dxl := (s.dxl.goal_position_setter v).1 } := by
    rcases h with h0 | ⟨t0, ht, hl⟩
    · exact Or.inl h0
    · exact Or.inr ⟨t0, by rw [goal_position_setter_timer]; exact ht, hl⟩
  rw [MotorSys.writeGoal]
  split
  · exact timerInv_schedule _ h1
  · exact h1

/-- Every motor event preserves the timer invariant. -/
theorem timerInv_step (s : MotorSys) (op : MotorOp) (h : TimerInv s) :
    TimerInv (s.step op) := by
  cases op with
  | writeGoal v => exact timerInv_writeGoal s v h
  | setCompliant b => exact h
  | setStaticFix b => exact h
  | movePresent r => exact h
  | fire t => exact timerInv_fire s t h

/-- Every sequence of motor events preserves the timer invariant. -/
theorem timerInv_run (s : MotorSys) (ops : List MotorOp) (h : TimerInv s) :
    TimerInv (s.run ops) := by
  induction ops generalizing s with
  | nil => exact h
  | cons op rest ih => exact ih (s.step op) (timerInv_step s op h)

/-- The timer invariant bounds the number of live timers by one. -/
theorem timerInv_length (s : MotorSys) (h : TimerInv s) :
    s.live.length ≤ 1 := by
  rcases h with h0 | ⟨t0, _, hl⟩
  · simp [h0]
  · simp [hl]

/-- C6: starting from a freshly attached joint, no sequence of motor events
(goal writes with or without the static fix active, compliance toggles,
physical motion, timers firing) ever leaves more than one live static-error
timer on the motor: a new goal write always cancels the pending timer before
starting the next one. -/
theorem at_most_one_live_timer (offset : ℚ) (direct : Bool)
    (ops : List MotorOp) :
    ((initSys offset direct).run ops).live.length ≤ 1 :=
  timerInv_length _ (timerInv_run _ ops (Or.inl rfl))
